import Mathlib

/-!
Verification development for the Climathia weather-station backend.

The Python sources (FastAPI controllers and pandas-based services) are
shallowly embedded below.  Conventions used throughout:

* a pandas `DataFrame` of readings is a `DF`: a list of `Row`s plus the list
  of column names; per-variable measurement cells are `Option ℚ` (an absent
  cell — `NaN` in pandas — is `none`); floating-point numbers are modelled
  as rationals, so float rounding noise is abstracted away (none of the
  properties proved here depends on it);
* timestamps are instants: microseconds since the Unix epoch, UTC, matching
  the timezone-aware datetimes the services compare against;
* Python exceptions are modelled with `Except PyErr`; a total embedded
  function models Python code whose only failure points are outside the
  modelled fragment;
* Python `str.lower`/`str.strip` and the regular expressions used by the
  services are implemented directly on character lists so that every
  definition evaluates by kernel reduction.  `Char.toLower` only folds
  ASCII letters while Python also folds accented letters; all inputs that
  appear in the claims are already lower-cased on the accented letters, so
  the difference is immaterial here.
-/

namespace Climathia

/-! ### Generic helpers (Python string/list primitives) -/

/-- Lower-case a string character-wise (Python `str.lower`). -/
def pyLower (s : String) : String := ⟨s.data.map Char.toLower⟩

/-- Whitespace test used by `str.strip` / `str.split`. -/
def wsChar (c : Char) : Bool := c = ' ' || c = '\t' || c = '\n' || c = '\r'

/-- Strip leading and trailing whitespace (Python `str.strip`). -/
def pyStrip (s : String) : String :=
  ⟨((s.data.dropWhile wsChar).reverse.dropWhile wsChar).reverse⟩

/-- The `pregunta.lower().strip()` normalisation both chat services apply. -/
def pyNormalize (s : String) : String := pyStrip (pyLower s)

/-- Boolean list-prefix test (structural, kernel-reducible). -/
def prefixOfL : List Char → List Char → Bool
  | [], _ => true
  | _ :: _, [] => false
  | a :: as, b :: bs => a == b && prefixOfL as bs

/-- Whether `pat` occurs as a contiguous run inside `hay` (Python `in`). -/
def containsL (hay pat : List Char) : Bool :=
  match hay with
  | [] => pat.isEmpty
  | _ :: rest => prefixOfL pat hay || containsL rest pat

/-- Substring containment on strings (Python `pat in hay`). -/
def strContains (hay pat : String) : Bool := containsL hay.data pat.data

/-- String prefix test (Python `str.startswith`). -/
def strStarts (s pre : String) : Bool := prefixOfL pre.data s.data

/-- Suffix of `l` after the first occurrence of `pat`, if any. -/
def afterFirstOcc (pat : List Char) : List Char → Option (List Char)
  | [] => if pat.isEmpty then some [] else none
  | c :: rest =>
    if prefixOfL pat (c :: rest) then some ((c :: rest).drop pat.length)
    else afterFirstOcc pat rest

/-- Replace every occurrence of `pat` by `rep`, with an explicit length fuel
so the recursion is structural (Python `str.replace`). -/
def replaceFuel (pat rep : List Char) : Nat → List Char → List Char
  | 0, l => l
  | _ + 1, [] => []
  | fuel + 1, c :: rest =>
    if prefixOfL pat (c :: rest) && !pat.isEmpty then
      rep ++ replaceFuel pat rep fuel ((c :: rest).drop pat.length)
    else c :: replaceFuel pat rep fuel rest

/-- Python `str.replace` (all occurrences). -/
def pyReplace (s pat rep : String) : String :=
  ⟨replaceFuel pat.data rep.data s.data.length s.data⟩

/-- Split on a separator character, keeping empty fields (used for dates). -/
def splitOnCharAux (sep : Char) : List Char → List Char → List (List Char)
  | [], acc => [acc.reverse]
  | c :: rest, acc =>
    if c = sep then acc.reverse :: splitOnCharAux sep rest []
    else splitOnCharAux sep rest (c :: acc)

/-- Split a character list on a separator character. -/
def splitOnChar (sep : Char) (l : List Char) : List (List Char) :=
  splitOnCharAux sep l []

/-- Python `str.split()` with no argument: whitespace-separated words. -/
def splitWsAux : List Char → List Char → List (List Char)
  | [], acc => [acc.reverse]
  | c :: rest, acc =>
    if wsChar c then acc.reverse :: splitWsAux rest []
    else splitWsAux rest (c :: acc)

/-- Word list of a string, Python `str.split()` semantics. -/
def pyWords (s : String) : List (List Char) :=
  (splitWsAux s.data []).filter (fun w => !w.isEmpty)

/-- ASCII decimal-digit test, stated on `Char.toNat` for easy arithmetic. -/
def isDigitChar (c : Char) : Bool := 48 ≤ c.toNat && c.toNat ≤ 57

/-- Numeric value of a digit string (the `int(...)` of a regex capture). -/
def digitsToNat (cs : List Char) : Nat :=
  cs.foldl (fun acc c => acc * 10 + (c.toNat - 48)) 0

/-- Model of `re.match(r'^(\d+)$', q)` followed by `int(group(1))`. -/
def numMatch (q : String) : Option Nat :=
  if !q.data.isEmpty && q.data.all isDigitChar then some (digitsToNat q.data)
  else none

/-- Single-letter match on a character list: `a`-`f` in either case
(character codes 97-102 and 65-70). -/
def letraMatchL : List Char → Option Char
  | [c] =>
    if (97 ≤ c.toNat && c.toNat ≤ 102) || (65 ≤ c.toNat && c.toNat ≤ 70) then
      some c
    else none
  | _ => none

/-- Model of `re.match(r'^([a-fA-F])$', q)`. -/
def letraMatch (q : String) : Option Char := letraMatchL q.data

/-- First-occurrence-order duplicate removal, accumulator form (models
`pandas.Series.unique`, which keeps the order of first appearance). -/
def uniqueFirstAux {α : Type} [DecidableEq α] (seen : List α) : List α → List α
  | [] => []
  | a :: rest =>
    if a ∈ seen then uniqueFirstAux seen rest
    else a :: uniqueFirstAux (a :: seen) rest

/-- Distinct values of a list, in order of first appearance. -/
def uniqueFirst {α : Type} [DecidableEq α] (l : List α) : List α :=
  uniqueFirstAux [] l

/-- Python sequence indexing: nonnegative indices from the front, negative
indices from the back, `none` models an `IndexError`. -/
def pyIndex {α : Type} (l : List α) (i : Int) : Option α :=
  if 0 ≤ i then l.get? i.toNat
  else if 0 ≤ (l.length : Int) + i then l.get? ((l.length : Int) + i).toNat
  else none

/-- Minimum of the `f`-images of a nonempty list (pandas `.min()`). -/
def foldMin (f : α → Int) (x : α) (xs : List α) : Int :=
  xs.foldl (fun m r => min m (f r)) (f x)

/-- Maximum of the `f`-images of a nonempty list (pandas `.max()`). -/
def foldMax (f : α → Int) (x : α) (xs : List α) : Int :=
  xs.foldl (fun m r => max m (f r)) (f x)

/-! ### Calendar arithmetic

`datetime.strptime(date, "%Y-%m-%d")` followed by `.replace(tzinfo=utc)`
turns a date string into the UTC instants bounding that calendar day.  Days
since the Unix epoch are computed with the standard civil-calendar formula
(truncating division; all intermediate values are nonnegative for the years
accepted by the parser, so truncating and flooring division agree). -/

/-- Gregorian leap-year test. -/
def isLeap (y : Nat) : Bool := (y % 4 == 0 && y % 100 != 0) || y % 400 == 0

/-- Days in a month of the proleptic Gregorian calendar. -/
def daysInMonth (y m : Nat) : Nat :=
  if m = 2 then (if isLeap y then 29 else 28)
  else if m = 4 || m = 6 || m = 9 || m = 11 then 30
  else 31

/-- Parse and validate a `YYYY-MM-DD` date string, the fragment of
`datetime.strptime(date, "%Y-%m-%d")` relevant to well- and mal-formed
inputs: three dash-separated digit fields with a valid month and day.
`none` models the `ValueError` strptime raises. -/
def parseDate (s : String) : Option (Nat × Nat × Nat) :=
  match splitOnChar '-' s.data with
  | [ys, ms, ds] =>
    if !ys.isEmpty && ys.length ≤ 4 && ys.all isDigitChar &&
       !ms.isEmpty && ms.length ≤ 2 && ms.all isDigitChar &&
       !ds.isEmpty && ds.length ≤ 2 && ds.all isDigitChar then
      let y := digitsToNat ys
      let m := digitsToNat ms
      let d := digitsToNat ds
      if 1 ≤ m && m ≤ 12 && 1 ≤ d && d ≤ daysInMonth y m then some (y, m, d)
      else none
    else none
  | _ => none

/-- Days from the Unix epoch to a civil date (Hinnant's algorithm). -/
def daysFromCivil (y m d : Nat) : Int :=
  let yy : Int := if m ≤ 2 then (y : Int) - 1 else (y : Int)
  let era : Int := (if 0 ≤ yy then yy else yy - 399) / 400
  let yoe : Int := yy - era * 400
  let mp : Int := if 2 < m then (m : Int) - 3 else (m : Int) + 9
  let doy : Int := (153 * mp + 2) / 5 + (d : Int) - 1
  let doe : Int := yoe * 365 + yoe / 4 - yoe / 100 + doy
  era * 146097 + doe - 719468

/-- Instant of `00:00:00.000000` UTC of a civil date, in microseconds. -/
def dayStartMicros (d : Nat × Nat × Nat) : Int :=
  daysFromCivil d.1 d.2.1 d.2.2 * 86400000000

/-- Instant of `23:59:59.999999` UTC of a civil date, in microseconds. -/
def dayEndMicros (d : Nat × Nat × Nat) : Int := dayStartMicros d + 86399999999

/-! ### `data_service._load_data`: the imputation-flag normalisation -/

/-- A raw CSV cell of an imputation-flag column: a string token or absent. -/
inductive Cell where
  | str (s : String)
  | absent
deriving DecidableEq

/-- The `df.replace('NA', np.nan)` step applied to one cell. -/
def replaceNA (c : Cell) : Cell :=
  match c with
  | .str s => if s = "NA" then .absent else .str s
  | .absent => .absent

/-- One cell under `Series.map({'TRUE': True, 'FALSE': False})`: values that
are not keys of the dictionary — including absent cells — become `NaN`
(`none`), because `Series.map` sends unmapped values to `NaN`. -/
def mapFlagDict (c : Cell) : Option Bool :=
  match c with
  | .str s =>
    if s = "TRUE" then some true else if s = "FALSE" then some false else none
  | .absent => none

/-- The full `_load_data` pipeline on one imputation-flag cell:
`replace('NA', nan)` followed by the dictionary `map`. -/
def loadImputedFlag (c : Cell) : Option Bool := mapFlagDict (replaceNA c)

/-! ### Data model: readings -/

/-- One reading row of the loaded dataframe.  The fixed identity columns
are explicit fields; the numeric measurement columns are accessed through
`vals`, with `none` for an absent (`NaN`) cell. -/
structure Row where
  station_id : Int
  timestamp : Int
  station_name : String
  tipo_equipo : String
  lat : ℚ
  lon : ℚ
  vals : String → Option ℚ

/-- The loaded dataframe: its column list and its rows. -/
structure DF where
  columns : List String
  rows : List Row

/-! ### `stations_service` -/

/-- Python `round(x, 2)` modelled on rationals. -/
def round2 (x : ℚ) : ℚ := (round (x * 100) : ℚ) / 100

/-- Minimum of a nonempty list of rationals. -/
def ratMin (x : ℚ) (xs : List ℚ) : ℚ := xs.foldl min x

/-- Maximum of a nonempty list of rationals. -/
def ratMax (x : ℚ) (xs : List ℚ) : ℚ := xs.foldl max x

/-- The per-variable statistics dictionary built by
`get_all_stations_averages` when at least one valid value remains. -/
structure VarStats where
  average : ℚ
  count : Nat
  vmin : ℚ
  vmax : ℚ
deriving DecidableEq

/-- Statistics of one variable over one station's rows of the day: drop
absent values; if none remain (or the column does not exist) report `none`,
otherwise mean/min/max rounded to two decimals plus the sample count.  The
mean divides by the length of the nonempty valid-value list. -/
def variableStats (cols : List String) (rows : List Row) (v : String) :
    Option VarStats :=
  if v ∈ cols then
    match rows.filterMap (fun r => r.vals v) with
    | [] => none
    | x :: xs =>
      some { average := round2 ((x :: xs).sum / ((x :: xs).length : ℚ))
             count := (x :: xs).length
             vmin := round2 (ratMin x xs)
             vmax := round2 (ratMax x xs) }
  else none

/-- `_get_average_value`: the rounded average of a statistics dictionary,
or `none` when the dictionary is absent. -/
def getAverageValue (o : Option VarStats) : Option ℚ :=
  match o with
  | some st => some (round2 st.average)
  | none => none

/-- The `data` block formatted for the map component. -/
structure FormattedAverages where
  temp : Option ℚ
  hum : Option ℚ
  pm_1p0 : Option ℚ
  pm_2p5 : Option ℚ
  pm_10p0 : Option ℚ
  ica : Option ℚ
  precipitacion : Option ℚ
  ts : Option Int
deriving DecidableEq

/-- One station's block in the all-stations averages response. -/
structure StationAveragesEntry where
  station_id : Int
  station_name : String
  lat : ℚ
  lon : ℚ
  tipo_equipo : String
  record_count : Nat
  raw_averages : List (String × Option VarStats)
  data : FormattedAverages
deriving DecidableEq

/-- The all-stations averages response.  The zero-data early return has no
`vars` key, modelled by `vars = none`. -/
structure AveragesResult where
  date : String
  total_stations : Nat
  stations_with_data : Nat
  vars : Option (List String)
  stations : List StationAveragesEntry
deriving DecidableEq

/-- A Python exception: `ValueError` (raised by `strptime` on a malformed
date and by a negative `sample` size) versus any other exception. -/
inductive PyErr where
  | valueError (msg : String)
  | other (msg : String)
deriving DecidableEq

/-- Default variable list of `get_all_stations_averages`. -/
def defaultVariables : List String :=
  ["ica", "humedad", "pm_1", "pm_2_5", "pm_10", "temp", "precipitacion"]

/-- Dictionary `get` on the averages dictionary: `averages.get(key)` is
`None` both when the key is missing and when it maps to `None`. -/
def averagesGet (averages : List (String × Option VarStats)) (key : String) :
    Option VarStats :=
  (averages.lookup key).getD none

/-- `StationsService.get_all_stations_averages`: select readings of the UTC
calendar day, group by station id in first-appearance order, and build the
per-station averages; a malformed date is a `ValueError`, a day with no
readings is the empty success payload. -/
def get_all_stations_averages (df : DF) (date : String)
    (vars : List String) : Except PyErr AveragesResult :=
  match parseDate date with
  | none => .error (.valueError s!"time data {date} does not match format")
  | some d =>
    let start := dayStartMicros d
    let stop := dayEndMicros d
    let daily := df.rows.filter
      (fun r => decide (start ≤ r.timestamp) && decide (r.timestamp ≤ stop))
    if daily.isEmpty then
      .ok { date := date, total_stations := 0, stations_with_data := 0,
            vars := none, stations := [] }
    else
      let uniqueStations := uniqueFirst (daily.map (·.station_id))
      let stationsData := uniqueStations.filterMap (fun sid =>
        match daily.filter (fun r => r.station_id == sid) with
        | [] => none
        | info :: rest =>
          let station_data := info :: rest
          let averages := vars.map
            (fun v => (v, variableStats df.columns station_data v))
          some { station_id := sid
                 station_name := info.station_name
                 lat := info.lat
                 lon := info.lon
                 tipo_equipo := info.tipo_equipo
                 record_count := station_data.length
                 raw_averages := averages
                 data := { temp := getAverageValue (averagesGet averages "temp")
                           hum := getAverageValue (averagesGet averages "humedad")
                           pm_1p0 := getAverageValue (averagesGet averages "pm_1")
                           pm_2p5 := getAverageValue (averagesGet averages "pm_2_5")
                           pm_10p0 := getAverageValue (averagesGet averages "pm_10")
                           ica := getAverageValue (averagesGet averages "ica")
                           precipitacion :=
                             getAverageValue (averagesGet averages "precipitacion")
                           ts := none } })
      .ok { date := date
            total_stations := uniqueStations.length
            stations_with_data := stationsData.length
            vars := some vars
            stations := stationsData }

/-- `StationsService.get_station_averages`: the convenience wrapper that
scans the all-stations result for one station id; `none` models the
"no data for this station" fallback dictionary. -/
def get_station_averages (df : DF) (station_id : Int) (date : String)
    (vars : List String) : Except PyErr (Option StationAveragesEntry) :=
  (get_all_stations_averages df date vars).map
    (fun res => res.stations.find? (fun s => s.station_id == station_id))

/-- Equipment-type priority of `get_stations_summary`:
`{'VUE+AIR': 1, 'PRO': 2, 'AIR': 3}` with `fillna(999)`. -/
def tipoPriority (t : String) : Nat :=
  if t = "VUE+AIR" then 1 else if t = "PRO" then 2 else if t = "AIR" then 3
  else 999

/-- The `sort_values(['station_id', 'priority'])` ordering on rows. -/
def rowPriorityLE (a b : Row) : Prop :=
  a.station_id < b.station_id ∨
    (a.station_id = b.station_id ∧
      tipoPriority a.tipo_equipo ≤ tipoPriority b.tipo_equipo)

instance : DecidableRel rowPriorityLE := fun a b => by
  unfold rowPriorityLE; infer_instance

instance : IsTotal Row rowPriorityLE := ⟨by
  intro a b
  rcases lt_trichotomy a.station_id b.station_id with h | h | h
  · exact Or.inl (Or.inl h)
  · rcases Nat.le_total (tipoPriority a.tipo_equipo) (tipoPriority b.tipo_equipo)
      with h2 | h2
    · exact Or.inl (Or.inr ⟨h, h2⟩)
    · exact Or.inr (Or.inr ⟨h.symm, h2⟩)
  · exact Or.inr (Or.inl h)⟩

instance : IsTrans Row rowPriorityLE := ⟨by
  intro a b c hab hbc
  rcases hab with h | ⟨he, hp⟩
  · rcases hbc with h2 | ⟨he2, _⟩
    · exact Or.inl (h.trans h2)
    · exact Or.inl (he2 ▸ h)
  · rcases hbc with h2 | ⟨he2, hp2⟩
    · exact Or.inl (he ▸ h2)
    · exact Or.inr ⟨he.trans he2, hp.trans hp2⟩⟩

/-- One station in the deduplicated summary. -/
structure StationSummaryEntry where
  station_id : Int
  station_name : String
  lat : ℚ
  lon : ℚ
  tipo_equipo : String
deriving DecidableEq

/-- The deduplicated stations summary. -/
structure StationsSummary where
  total_stations : Nat
  stations : List StationSummaryEntry
deriving DecidableEq

/-- `StationsService.get_stations_summary`: stable sort by
`(station_id, priority)` — a deterministic refinement of pandas
`sort_values` — then one entry per station id, taking the group's first
row (`groupby('station_id').first()`, keys in ascending order). -/
def get_stations_summary (df : DF) : StationsSummary :=
  let sortedRows := df.rows.insertionSort rowPriorityLE
  let sids := uniqueFirst (sortedRows.map (·.station_id))
  let stations := sids.filterMap (fun sid =>
    (sortedRows.find? (fun r => r.station_id == sid)).map (fun r =>
      ({ station_id := r.station_id
         station_name := r.station_name
         lat := r.lat
         lon := r.lon
         tipo_equipo := r.tipo_equipo } : StationSummaryEntry)))
  { total_stations := stations.length, stations := stations }

/-- `_format_value`: an absent value stays absent, a numeric value is
rounded to two decimals (`NaN`/`inf` floats have no rational counterpart;
an absent cell already models them). -/
def formatValue (v : Option ℚ) : Option ℚ := v.map round2

/-- One measurement dictionary of the detailed-data response. -/
structure Measurement where
  timestamp_ms : Int
  pm_1 : Option ℚ
  pm_2_5 : Option ℚ
  pm_10 : Option ℚ
  humedad : Option ℚ
  ica : Option ℚ
  temperatura : Option ℚ
  presion : Option ℚ
  vel_viento : Option ℚ
  dir_viento : Option ℚ
  precipitacion : Option ℚ
deriving DecidableEq

/-- The `data` block of the detailed-data response; keys that the code
omits on some paths are `Option`s. -/
structure DetailedData where
  station_id : Int
  station_name : Option String
  date : String
  total_measurements : Option Nat
  measurements : List Measurement
deriving DecidableEq

/-- The detailed-data response: the service catches every exception itself
and reports it in-band through `success`/`error`. -/
structure DetailedResult where
  success : Bool
  error : Option String
  data : DetailedData
deriving DecidableEq

/-- Ordering of the `sort_values('timestamp')` step. -/
def rowTimestampLE (a b : Row) : Prop := a.timestamp ≤ b.timestamp

instance : DecidableRel rowTimestampLE := fun a b => by
  unfold rowTimestampLE; infer_instance

/-- `StationsService.get_station_detailed_data`: filter the station's rows
of the UTC day, sort by timestamp and render each row; the surrounding
`except Exception` converts any failure — including the `ValueError` of a
malformed date — into a `success = False` payload instead of raising. -/
def get_station_detailed_data (df : DF) (station_id : Int) (date : String) :
    DetailedResult :=
  match parseDate date with
  | none =>
    { success := false
      error := some s!"time data {date} does not match format"
      data := { station_id := station_id, station_name := none, date := date,
                total_measurements := none, measurements := [] } }
  | some d =>
    let start := dayStartMicros d
    let stop := dayEndMicros d
    let station_data := df.rows.filter (fun r =>
      r.station_id == station_id && decide (start ≤ r.timestamp) &&
        decide (r.timestamp ≤ stop))
    match station_data.insertionSort rowTimestampLE with
    | [] =>
      { success := true, error := none
        data := { station_id := station_id, station_name := none, date := date,
                  total_measurements := none, measurements := [] } }
    | info :: rest =>
      let sorted := info :: rest
      let measurements := sorted.map (fun r =>
        ({ timestamp_ms := r.timestamp / 1000
           pm_1 := formatValue (r.vals "pm_1")
           pm_2_5 := formatValue (r.vals "pm_2_5")
           pm_10 := formatValue (r.vals "pm_10")
           humedad := formatValue (r.vals "humedad")
           ica := formatValue (r.vals "ica")
           temperatura := formatValue (r.vals "temp")
           presion := formatValue (r.vals "presion")
           vel_viento := formatValue (r.vals "viento_vel")
           dir_viento := formatValue (r.vals "viento_dir")
           precipitacion := formatValue (r.vals "precipitacion") } : Measurement))
      { success := true, error := none
        data := { station_id := station_id
                  station_name := some info.station_name
                  date := date
                  total_measurements := some measurements.length
                  measurements := measurements } }

/-! ### `chatbot_service` -/

/-- The `latest_measurements` block of a chatbot station summary. -/
structure LatestMeasurements where
  timestamp : Int
  measurements : List (String × ℚ)
deriving DecidableEq

/-- The fragment of a `StationSummary` that the chat pipeline consumes:
identity plus the latest measurements. -/
structure StationSummaryC where
  station_id : Int
  station_name : String
  latest_measurements : LatestMeasurements
deriving DecidableEq

/-- The row attaining the maximal timestamp, first occurrence on ties
(pandas `idxmax`). -/
def argmaxTimestamp (x : Row) (xs : List Row) : Row :=
  xs.foldl (fun best r => if best.timestamp < r.timestamp then r else best) x

/-- Tracked variables of `_get_latest_measurements`. -/
def latestVars : List String :=
  ["temp", "humedad", "presion", "viento_vel", "pm_2_5", "ica", "precipitacion"]

/-- `_get_latest_measurements`: the non-absent tracked values of the most
recent row (`if var in latest and pd.notna(latest[var])`). -/
def latestMeasurementsOf (cols : List String) (x : Row) (xs : List Row) :
    LatestMeasurements :=
  let latest := argmaxTimestamp x xs
  { timestamp := latest.timestamp
    measurements := latestVars.filterMap (fun v =>
      if v ∈ cols then (latest.vals v).map (fun q => (v, q)) else none) }

/-- `_get_stations_summary` restricted to the fields the chat pipeline
reads: one summary per station id in first-appearance order, the name from
the station's first row and the latest measurements from its newest row. -/
def chatbotStations (df : DF) : List StationSummaryC :=
  (uniqueFirst (df.rows.map (·.station_id))).filterMap (fun sid =>
    match df.rows.filter (fun r => r.station_id == sid) with
    | [] => none
    | x :: xs =>
      some { station_id := sid
             station_name := x.station_name
             latest_measurements := latestMeasurementsOf df.columns x xs })

/-- Number of distinct station ids (`df['station_id'].nunique()`). -/
def numEstaciones (df : DF) : Nat :=
  (uniqueFirst (df.rows.map (·.station_id))).length

/-- The static phrase table of `_responder_heuristico`, keyed by the
lower-cased trimmed input.  Data-dependent answers interpolate the live
counts; Python's thousands separator and `%d/%m/%Y` date rendering are
abstracted to plain decimal rendering of the underlying numbers, which no
claim inspects. -/
def respuestasHeuristicas (df : DF) : List (String × String) :=
  let n := numEstaciones df
  let m := df.rows.length
  let tmin : Int := (match df.rows with
    | [] => 0
    | x :: xs => foldMin (fun r => r.timestamp) x xs)
  let tmax : Int := (match df.rows with
    | [] => 0
    | x :: xs => foldMax (fun r => r.timestamp) x xs)
  [ ("hola", "¡Hola! 👋 Soy tu asistente de datos climáticos. ¿En qué puedo ayudarte?"),
    ("buenos días", "¡Buenos días! ☀️ ¿Qué información climática necesitas hoy?"),
    ("buenas tardes", "¡Buenas tardes! 🌤️ ¿Cómo puedo ayudarte con los datos meteorológicos?"),
    ("cuántas estaciones hay", s!"Tenemos {n} estaciones meteorológicas monitoreando la región."),
    ("cuantas estaciones hay", s!"Tenemos {n} estaciones meteorológicas monitoreando la región."),
    ("qué variables miden", "Las estaciones miden: temperatura 🌡️, humedad 💧, presión atmosférica 📊, viento 💨, partículas PM (1.0, 2.5, 10) 🌫️, índice de calidad del aire (ICA) 🌬️ y precipitación ☔"),
    ("que variables miden", "Las estaciones miden: temperatura 🌡️, humedad 💧, presión atmosférica 📊, viento 💨, partículas PM (1.0, 2.5, 10) 🌫️, índice de calidad del aire (ICA) 🌬️ y precipitación ☔"),
    ("qué es pm2.5", "PM2.5 son partículas finas de 2.5 micrómetros o menos. Son peligrosas porque pueden penetrar profundamente en los pulmones y el torrente sanguíneo. 🫁"),
    ("que es pm2.5", "PM2.5 son partículas finas de 2.5 micrómetros o menos. Son peligrosas porque pueden penetrar profundamente en los pulmones y el torrente sanguíneo. 🫁"),
    ("qué es ica", "El ICA (Índice de Calidad del Aire) mide qué tan limpio o contaminado está el aire. Valores: 0-50 Bueno 🟢, 51-100 Moderado 🟡, 101-150 Dañino para grupos sensibles 🟠, 151+ Dañino 🔴"),
    ("que es ica", "El ICA (Índice de Calidad del Aire) mide qué tan limpio o contaminado está el aire. Valores: 0-50 Bueno 🟢, 51-100 Moderado 🟡, 101-150 Dañino para grupos sensibles 🟠, 151+ Dañino 🔴"),
    ("qué es humedad", "La humedad relativa es el porcentaje de vapor de agua en el aire comparado con el máximo que puede contener a esa temperatura. 💧"),
    ("que es humedad", "La humedad relativa es el porcentaje de vapor de agua en el aire comparado con el máximo que puede contener a esa temperatura. 💧"),
    ("cuántos registros hay", s!"Tenemos {m} registros de mediciones en total."),
    ("cuantos registros hay", s!"Tenemos {m} registros de mediciones en total."),
    ("desde cuándo hay datos", s!"Los datos van desde {tmin} hasta {tmax}."),
    ("desde cuando hay datos", s!"Los datos van desde {tmin} hasta {tmax}.") ]

/-- A heuristic answer, abstracted to its discriminating content: the
exact-match phrase answers keep their full text; the pattern handlers are
identified by their branch (their rendered statistics are inspected by no
claim), except the station-by-number handler, which is embedded in full
because claim C8 exercises its internals. -/
inductive HeurAnswer where
  | frase (s : String)
  | estacionNumero (numero : Nat) (nombre : String)
  | estacionFueraDeRango (total : Nat)
  | estacionNumeroError
  | temperaturaPromedio
  | humedadPromedio
  | calidadAireGeneral
  | pmAlto
  | mejorAire
  | peorAire
deriving DecidableEq

/-- The capture of `re.search(r'.*estación.*(\d+).*', q)`: with greedy
`.*`s the group captures exactly the last digit of `q` that has an
occurrence of `estación` fully before it; `none` when the pattern has no
match at all. -/
def matchEstacionNumero (q : String) : Option Nat :=
  let cs := q.data
  match ((List.range cs.length).filter (fun j =>
      isDigitChar (cs.getD j ' ') && containsL (cs.take j) "estación".data)).getLast? with
  | some j => some ((cs.getD j ' ').toNat - 48)
  | none => none

/-- Whether `re.search(r'.*A.*B.*', q)` matches: an occurrence of `a`
followed, anywhere later, by an occurrence of `b`. -/
def matchesSeq (q a b : String) : Bool :=
  match afterFirstOcc a.data q.data with
  | some rest => containsL rest b.data
  | none => false

/-- `_responder_estacion_por_numero`: number of distinct stations, bound
check `numero <= len(estaciones)`, then `sorted(estaciones)[numero - 1]`
— Python indexing, so index `-1` (from `numero = 0`) wraps to the last
station.  A raised `IndexError` or an empty station frame is caught by the
handler's `except` and becomes the error answer. -/
def responderEstacionPorNumero (df : DF) (numero : Nat) : HeurAnswer :=
  let estaciones := uniqueFirst (df.rows.map (·.station_id))
  if numero ≤ estaciones.length then
    match pyIndex (estaciones.insertionSort (· ≤ ·)) ((numero : Int) - 1) with
    | none => .estacionNumeroError
    | some sid =>
      match df.rows.filter (fun r => r.station_id == sid) with
      | [] => .estacionNumeroError
      | x :: _ => .estacionNumero numero x.station_name
  else .estacionFueraDeRango estaciones.length

/-- `_responder_heuristico`: exact match against the phrase table first,
then the ordered regex pattern list, first match wins, `none` when nothing
matches. -/
def responderHeuristico (df : DF) (pregunta : String) : Option HeurAnswer :=
  let q := pyNormalize pregunta
  match (respuestasHeuristicas df).lookup q with
  | some r => some (.frase r)
  | none =>
    match matchEstacionNumero q with
    | some n => some (responderEstacionPorNumero df n)
    | none =>
      if matchesSeq q "temperatura" "promedio" then some .temperaturaPromedio
      else if matchesSeq q "humedad" "promedio" then some .humedadPromedio
      else if matchesSeq q "calidad" "aire" then some .calidadAireGeneral
      else if matchesSeq q "pm" "alto" then some .pmAlto
      else if matchesSeq q "mejor" "aire" then some .mejorAire
      else if matchesSeq q "peor" "aire" then some .peorAire
      else none

/-- Which stage of `responder_pregunta` produced the reply. -/
inductive RespuestaVia where
  | heuristica (a : HeurAnswer)
  | gemini
  | fallback
deriving DecidableEq

/-- `ChatbotService.responder_pregunta`: heuristics first; only when they
return nothing is the AI used (when configured) or the canned fallback. -/
def responder_pregunta (df : DF) (hasGemini : Bool) (pregunta : String) :
    RespuestaVia :=
  match responderHeuristico df pregunta with
  | some a => .heuristica a
  | none => if hasGemini then .gemini else .fallback

/-- `ChatbotQuery`: the `date_range` dictionary values are modelled already
parsed to instants (`pd.to_datetime` of the `start`/`end` entries). -/
structure ChatbotQuery where
  stations : Option (List Int)
  queryVars : Option (List String)
  dateStart : Option Int
  dateEnd : Option Int
  include_raw_data : Bool
  max_records : Int

/-- The `get_filtered_data` result; `data` is present only when raw data
was requested, and the date range is `none` on an empty frame (`NaT`). -/
structure FilteredResult where
  total_records : Nat
  stations_count : Nat
  dateRangeStart : Option Int
  dateRangeEnd : Option Int
  data : Option (List Row)

/-- `ChatbotService.get_filtered_data`: apply the station, date and column
filters (an empty `stations` list is falsy in Python, so it filters
nothing), then down-sample to `max_records` rows when more remain —
`DataFrame.sample(n)` keeps exactly `n` rows; which rows it keeps is
irrelevant to every claim, so the model keeps the first `n` — and build the
result; a negative sample size raises `ValueError`. -/
def get_filtered_data (df : DF) (query : ChatbotQuery) :
    Except PyErr FilteredResult :=
  let df1 := match query.stations with
    | some (id0 :: ids) => df.rows.filter (fun r => (id0 :: ids).contains r.station_id)
    | _ => df.rows
  let df2 := match query.dateStart with
    | some s => df1.filter (fun r => decide (s ≤ r.timestamp))
    | none => df1
  let df3 := match query.dateEnd with
    | some e => df2.filter (fun r => decide (r.timestamp ≤ e))
    | none => df2
  let build := fun (rows : List Row) =>
    ({ total_records := rows.length
       stations_count := (uniqueFirst (rows.map (·.station_id))).length
       dateRangeStart := match rows with
         | [] => none
         | x :: xs => some (foldMin (·.timestamp) x xs)
       dateRangeEnd := match rows with
         | [] => none
         | x :: xs => some (foldMax (·.timestamp) x xs)
       data := if query.include_raw_data then some rows else none } :
      FilteredResult)
  if (df3.length : Int) > query.max_records then
    if query.max_records < 0 then .error (.valueError "a negative number of rows requested")
    else .ok (build (df3.take query.max_records.toNat))
  else .ok (build df3)

/-! ### `gemini_service` -/

/-- The remembered menu context (`last_menu_shown`). -/
inductive Menu where
  | estaciones
  | conceptos
deriving DecidableEq

/-- The intent dictionary produced by `interpretar_pregunta`, as a tagged
variant over the `accion` values the processor inspects. -/
inductive Intent where
  | saludo
  | listar
  | concepto (v : Option String)
  | general
  | estado_actual (estacion : Option String)
  | estado_actual_por_numero (numero : Nat)
  | concepto_por_letra (letra : Char)
  | serie (estacion v : Option String)
  | pregunta_abierta (pregunta_original : String)
deriving DecidableEq

/-- Greeting tokens checked by substring containment. -/
def saludosTokens : List String := ["hola", "hi", "hello", "buenas", "buenos"]

/-- Trigger words that route a message straight to the AI path. -/
def preguntasComplejas : List String :=
  ["cuál", "cual", "mejor", "peor", "mayor", "menor", "más alto", "mas alto",
   "más bajo", "mas bajo", "comparar", "compara", "diferencia", "ranking",
   "máximo", "maximo", "mínimo", "minimo", "promedio", "estadística"]

/-- `GeminiChatService.interpretar_pregunta`.  The external Gemini
classification call of the final stage is abstracted as `geminiOutcome`:
`some intent` models a completion that parsed as JSON (the parsed dictionary
is returned as-is, whatever its `accion`), `none` models a parse failure or
a raised exception, both of which fall back to an open question. -/
def interpretar_pregunta (hasGemini : Bool) (lastMenu : Option Menu)
    (geminiOutcome : Option Intent) (pregunta : String) : Intent :=
  if pregunta = "" then .saludo
  else
    let q := pyNormalize pregunta
    if saludosTokens.any (fun s => strContains q s) then .saludo
    else if lastMenu.isNone && q == "a" then .listar
    else if lastMenu.isNone && q == "b" then .concepto none
    else if strStarts q "qué es " || strStarts q "que es " then
      .concepto (some (pyStrip (pyReplace (pyReplace q "qué es " "") "que es " "")))
    else if preguntasComplejas.any (fun w => strContains q w) then
      .pregunta_abierta pregunta
    else if strContains q "cuántas estaciones" || strContains q "cuantas estaciones" then
      .general
    else if !hasGemini then .estado_actual (some pregunta)
    else
      match letraMatch q with
      | some c => .concepto_por_letra c.toUpper
      | none =>
        match numMatch q with
        | some n => .estado_actual_por_numero n
        | none =>
          match geminiOutcome with
          | some intent => intent
          | none => .pregunta_abierta pregunta

/-- A chat reply, abstracted to the branch that produced it together with
the data that identifies the rendered content (station names, counts,
concept keys); the claims about `procesar_pregunta` concern branch
selection and the menu state, not the literal Spanish templates. -/
inductive Reply where
  | saludoMenu
  | listaEstaciones (nombres : List String)
  | sinEstaciones
  | explicacion (v : String)
  | modoEducativo
  | generalInfo (totalEstaciones totalRegistros : Nat)
  | noEncontrada (estacion : String)
  | sinDatosRecientes (nombre : String)
  | estacionInfo (nombre : String)
  | fueraDeRango (total : Nat)
  | explicacionLetra (v : String)
  | letraFueraDeRango
  | serieMsg
  | abierta (pregunta : String)
  | noEntendido
deriving DecidableEq

/-- The reply together with the menu context after the turn. -/
structure ChatState where
  reply : Reply
  menu : Option Menu
deriving DecidableEq

/-- The concept table of the `concepto_por_letra` branch. -/
def conceptosPorLetra : List (Char × String) :=
  [('A', "pm2.5"), ('B', "humedad"), ('C', "presión"), ('D', "ica"),
   ('E', "precipitación"), ('F', "viento")]

/-- The fall-through region at the end of `procesar_pregunta`: messages of
more than one word become open questions, anything else the default reply.
The menu context is untouched here. -/
def fallbackRegion (pregunta : String) (menu : Option Menu) : ChatState :=
  if 1 < (pyWords pregunta).length then { reply := .abierta pregunta, menu := menu }
  else { reply := .noEntendido, menu := menu }

/-- The body of `GeminiChatService.procesar_pregunta` after intent
resolution: the if-chain over `accion`, with each branch's effect on
`last_menu_shown` made explicit.  Notably the greeting, the in-range
numeric station lookup and the valid letter lookup reset the context; the
by-name station lookup does not touch it; `listar` fires also when the raw
message lower-cases to `"a"`, before the remaining branches are tried. -/
def procesar_intent (df : DF) (menu : Option Menu) (intent : Intent)
    (pregunta : String) : ChatState :=
  let stations := chatbotStations df
  if intent = .saludo then { reply := .saludoMenu, menu := none }
  else if intent = .listar || pyLower pregunta == "a" then
    if stations.isEmpty then { reply := .sinEstaciones, menu := some .estaciones }
    else { reply := .listaEstaciones (stations.map (·.station_name)),
           menu := some .estaciones }
  else
    match intent with
    | .concepto ov =>
      match ov with
      | some v =>
        if v = "" then { reply := .modoEducativo, menu := some .conceptos }
        else { reply := .explicacion v, menu := menu }
      | none => { reply := .modoEducativo, menu := some .conceptos }
    | .general =>
      { reply := .generalInfo stations.length df.rows.length, menu := menu }
    | .estado_actual ov =>
      match ov with
      | some est =>
        if est = "" then fallbackRegion pregunta menu
        else
          match stations.find? (fun s =>
              containsL (pyLower s.station_name).data (pyLower est).data) with
          | none => { reply := .noEncontrada est, menu := menu }
          | some s =>
            if s.latest_measurements.measurements.isEmpty then
              { reply := .sinDatosRecientes s.station_name, menu := menu }
            else { reply := .estacionInfo s.station_name, menu := menu }
      | none => fallbackRegion pregunta menu
    | .estado_actual_por_numero n =>
      if n < 1 || stations.length < n then
        { reply := .fueraDeRango stations.length, menu := menu }
      else
        match stations.get? (n - 1) with
        | none => { reply := .fueraDeRango stations.length, menu := none }
        | some s =>
          if s.latest_measurements.measurements.isEmpty then
            { reply := .sinDatosRecientes s.station_name, menu := none }
          else { reply := .estacionInfo s.station_name, menu := none }
    | .concepto_por_letra c =>
      match conceptosPorLetra.lookup c with
      | some v => { reply := .explicacionLetra v, menu := none }
      | none => { reply := .letraFueraDeRango, menu := menu }
    | .serie _ _ => { reply := .serieMsg, menu := menu }
    | .pregunta_abierta orig => { reply := .abierta orig, menu := menu }
    | _ => fallbackRegion pregunta menu

/-- One full chat turn: intent resolution followed by processing. -/
def procesar_pregunta (df : DF) (hasGemini : Bool) (menu : Option Menu)
    (geminiOutcome : Option Intent) (pregunta : String) : ChatState :=
  procesar_intent df menu
    (interpretar_pregunta hasGemini menu geminiOutcome pregunta) pregunta

/-! ### `stations_controller`: the try/except ladders -/

/-- The `except ValueError`/`except Exception` ladder shared by the
averages endpoints: HTTP status 200 on success, 400 on a `ValueError`
(malformed date) and 500, with a generic message, on anything else. -/
def averagesLadder {α : Type} (out : Except PyErr α) : Nat :=
  match out with
  | .ok _ => 200
  | .error (.valueError _) => 400
  | .error (.other _) => 500

/-- `GET /stations/averages`: HTTP status of the all-stations averages
endpoint. -/
def all_stations_averages_endpoint (df : DF) (date : String)
    (vars : List String) : Nat :=
  averagesLadder (get_all_stations_averages df date vars)

/-- `GET /stations/{id}/averages`: HTTP status of the per-station averages
endpoint (its ladder also maps `AttributeError`/`TypeError` to 500, which
the two-constructor `PyErr` already covers as non-`ValueError` errors). -/
def station_averages_endpoint (df : DF) (station_id : Int) (date : String)
    (vars : List String) : Nat :=
  averagesLadder (get_station_averages df station_id date vars)

/-- `GET /stations/{id}/detailed-data`: the service never raises — it
catches everything internally — so the controller's `except` clauses are
dead and the endpoint always returns HTTP 200 with the service payload. -/
def detailed_data_endpoint (df : DF) (station_id : Int) (date : String) :
    Nat × DetailedResult :=
  (200, get_station_detailed_data df station_id date)

/-! ### Concrete sample data for witnesses and counterexamples -/

/-- The column list of the loaded dataframe. -/
def colsAll : List String :=
  ["timestamp", "station_id", "station_name", "tipo_equipo", "lat", "lon",
   "temp", "humedad", "presion", "viento_vel", "viento_dir", "pm_1",
   "pm_2_5", "pm_10", "ica", "precipitacion"]

/-- A reading with a temperature value and all other measurements absent. -/
def sampleRow (sid ts : Int) (name tipo : String) : Row :=
  { station_id := sid, timestamp := ts, station_name := name,
    tipo_equipo := tipo, lat := 7, lon := -73,
    vals := fun v => if v = "temp" then some 25 else none }

/-- A reading with every measurement absent. -/
def emptyRow (sid ts : Int) (name tipo : String) : Row :=
  { station_id := sid, timestamp := ts, station_name := name,
    tipo_equipo := tipo, lat := 7, lon := -73, vals := fun _ => none }

/-- One station, one reading inside 2024-01-15 UTC. -/
def dfOne : DF :=
  ⟨colsAll, [sampleRow 1 1705276800000000 "Halley UIS" "VUE+AIR"]⟩

/-- One station whose only reading has every measurement absent, taken
inside 2024-01-15 UTC. -/
def dfAllAbsent : DF :=
  ⟨colsAll, [emptyRow 5 1705276800000000 "Girón" "AIR"]⟩

/-- Three stations with one reading each. -/
def dfThree : DF :=
  ⟨colsAll,
   [sampleRow 1 1700000000000000 "Norte" "AIR",
    sampleRow 2 1700000001000000 "Centro" "AIR",
    sampleRow 3 1700000002000000 "Sur" "AIR"]⟩

/-- One station id appearing under two equipment-type labels. -/
def dfDup : DF :=
  ⟨colsAll,
   [sampleRow 7 1700000000000000 "Halley AIR" "AIR",
    sampleRow 7 1700000001000000 "Halley VUE" "VUE+AIR"]⟩

end Climathia

namespace Climathia

/-! ## Helper lemmas -/

theorem prefixOfL_subset {pat hay : List Char} (h : prefixOfL pat hay = true) :
    ∀ c ∈ pat, c ∈ hay := by
  induction pat generalizing hay with
  | nil => intro c hc; cases hc
  | cons a as ih =>
    cases hay with
    | nil => simp [prefixOfL] at h
    | cons b bs =>
      simp only [prefixOfL, Bool.and_eq_true, beq_iff_eq] at h
      intro c hc
      rcases List.mem_cons.mp hc with rfl | hc
      · exact h.1 ▸ List.mem_cons_self _ _
      · exact List.mem_cons_of_mem _ (ih h.2 c hc)

theorem containsL_subset {hay pat : List Char} (h : containsL hay pat = true) :
    ∀ c ∈ pat, c ∈ hay := by
  induction hay with
  | nil =>
    simp only [containsL, List.isEmpty_iff] at h
    subst h; intro c hc; cases hc
  | cons b bs ih =>
    simp only [containsL, Bool.or_eq_true] at h
    rcases h with h | h
    · exact prefixOfL_subset h
    · exact fun c hc => List.mem_cons_of_mem _ (ih h c hc)

theorem strContains_false_of_digits {q w : String}
    (hq : q.data.all isDigitChar = true)
    (hw : w.data.any (fun c => !isDigitChar c) = true) :
    strContains q w = false := by
  rcases List.any_eq_true.mp hw with ⟨c, hc, hcd⟩
  by_contra h
  have h' : containsL q.data w.data = true := by
    revert h; unfold strContains; cases containsL q.data w.data <;> simp
  have hmem := containsL_subset h' c hc
  have := List.all_eq_true.mp hq c hmem
  simp only [Bool.not_eq_true'] at hcd
  rw [this] at hcd; cases hcd

theorem strStarts_false_of_digits {q w : String}
    (hq : q.data.all isDigitChar = true)
    (hw : w.data.any (fun c => !isDigitChar c) = true) :
    strStarts q w = false := by
  rcases List.any_eq_true.mp hw with ⟨c, hc, hcd⟩
  by_contra h
  have h' : prefixOfL w.data q.data = true := by
    revert h; unfold strStarts; cases prefixOfL w.data q.data <;> simp
  have hmem := prefixOfL_subset h' c hc
  have := List.all_eq_true.mp hq c hmem
  simp only [Bool.not_eq_true'] at hcd
  rw [this] at hcd; cases hcd

theorem mem_uniqueFirstAux {α : Type} [DecidableEq α] (l : List α)
    (seen : List α) (x : α) :
    x ∈ uniqueFirstAux seen l ↔ (x ∈ l ∧ x ∉ seen) := by
  induction l generalizing seen with
  | nil => simp [uniqueFirstAux]
  | cons a rest ih =>
    by_cases ha : a ∈ seen
    · simp only [uniqueFirstAux, if_pos ha, ih, List.mem_cons]
      constructor
      · rintro ⟨h1, h2⟩; exact ⟨Or.inr h1, h2⟩
      · rintro ⟨h1 | h1, h2⟩
        · exact absurd (h1 ▸ ha) h2
        · exact ⟨h1, h2⟩
    · simp only [uniqueFirstAux, if_neg ha, List.mem_cons, ih]
      constructor
      · rintro (rfl | ⟨h1, h2⟩)
        · exact ⟨Or.inl rfl, ha⟩
        · exact ⟨Or.inr h1, fun hx => h2 (Or.inr hx)⟩
      · rintro ⟨h1 | h1, h2⟩
        · exact Or.inl h1
        · by_cases hx : x = a
          · exact Or.inl hx
          · exact Or.inr ⟨h1, fun hs => hs.elim hx h2⟩

theorem mem_uniqueFirst {α : Type} [DecidableEq α] (l : List α) (x : α) :
    x ∈ uniqueFirst l ↔ x ∈ l := by
  simp [uniqueFirst, mem_uniqueFirstAux]

theorem nodup_uniqueFirstAux {α : Type} [DecidableEq α] (l : List α)
    (seen : List α) : (uniqueFirstAux seen l).Nodup := by
  induction l generalizing seen with
  | nil => simp [uniqueFirstAux]
  | cons a rest ih =>
    by_cases ha : a ∈ seen
    · simpa [uniqueFirstAux, if_pos ha] using ih seen
    · simp only [uniqueFirstAux, if_neg ha]
      refine List.nodup_cons.mpr ⟨?_, ih (a :: seen)⟩
      intro hmem
      exact ((mem_uniqueFirstAux rest (a :: seen) a).mp hmem).2
        (List.mem_cons_self _ _)

theorem nodup_uniqueFirst {α : Type} [DecidableEq α] (l : List α) :
    (uniqueFirst l).Nodup := nodup_uniqueFirstAux l []

theorem lookup_map_self {β : Type} (l : List String) (f : String → β)
    (v : String) (hv : v ∈ l) :
    (l.map (fun x => (x, f x))).lookup v = some (f v) := by
  induction l with
  | nil => cases hv
  | cons a rest ih =>
    rcases List.mem_cons.mp hv with rfl | hv
    · simp [List.lookup]
    · by_cases hva : v = a
      · subst hva; simp [List.lookup]
      · have hb : (v == a) = false := beq_eq_false_iff_ne.mpr hva
        simp only [List.map_cons, List.lookup, hb]
        exact ih hv

/-! ## Claim C4 -/

/-- Claim C4, counterexample: the `_load_data` imputation-flag mapping
sends an unrecognised token and an absent cell to an absent value (`NaN`),
not to `false`, so after load a flag is not guaranteed to be a boolean. -/
theorem c4_counterexample :
    loadImputedFlag (Cell.str "yes") = none ∧
    loadImputedFlag Cell.absent = none ∧
    loadImputedFlag (Cell.str "yes") ≠ some false ∧
    loadImputedFlag Cell.absent ≠ some false := by decide

/-- Claim C4, amended: during load an imputation-flag cell is mapped to
`true` exactly when it is the literal string `TRUE` and to `false` exactly
when it is the literal `FALSE`; every other value — absent, the `NA`
sentinel, or any other string — is mapped to an absent value (`NaN`),
never to `false`. -/
theorem c4_amended_flag_mapping (s : String) :
    loadImputedFlag (.str "TRUE") = some true ∧
    loadImputedFlag (.str "FALSE") = some false ∧
    loadImputedFlag .absent = none ∧
    loadImputedFlag (.str "NA") = none ∧
    (s ≠ "TRUE" → s ≠ "FALSE" → loadImputedFlag (.str s) = none) := by
  refine ⟨rfl, rfl, rfl, rfl, fun h1 h2 => ?_⟩
  unfold loadImputedFlag replaceNA mapFlagDict
  by_cases hNA : s = "NA"
  · simp [hNA]
  · simp [hNA, h1, h2]

/-- Claim C4, witness for the amended theorem's conditional clause at the
concrete unrecognised token `"yes"`. -/
theorem c4_witness : loadImputedFlag (.str "yes") = none :=
  (c4_amended_flag_mapping "yes").2.2.2.2 (by decide) (by decide)

/-! ## Claim C5 -/

/-- Claim C5: whenever the lower-cased trimmed input is a key of the static
phrase table, `responder_pregunta` returns that exact phrase answer and
never reaches the AI or fallback stages, whatever the AI configuration. -/
theorem c5_heuristic_precedence (df : DF) (hasGemini : Bool)
    (pregunta ans : String)
    (h : (respuestasHeuristicas df).lookup (pyNormalize pregunta) = some ans) :
    responder_pregunta df hasGemini pregunta = .heuristica (.frase ans) := by
  unfold responder_pregunta responderHeuristico
  simp only [h]

/-- Claim C5, witness: the exact input `"cuántas estaciones hay"` against a
one-station dataset, with the AI configured. -/
theorem c5_witness :
    responder_pregunta dfOne true "cuántas estaciones hay" =
      .heuristica (.frase "Tenemos 1 estaciones meteorológicas monitoreando la región.") :=
  c5_heuristic_precedence dfOne true "cuántas estaciones hay"
    "Tenemos 1 estaciones meteorológicas monitoreando la región." (by decide)

/-! ## Claim C8 -/

/-- Claim C8, behaviour at the failing input: the station-by-number phrase
handler accepts `numero = 0` (the check is only `numero <= len`), and
Python indexing at `0 - 1 = -1` wraps around to the **last** station of the
sorted id list, so the reply is that station's data card titled
`Estación 0` — not the bounds message the spec requires for an
out-of-range number. -/
theorem c8_zero_wraps_to_last_station :
    responderHeuristico dfThree "estación 0" =
      some (.estacionNumero 0 "Sur") ∧
    responderHeuristico dfThree "estación 0" ≠
      some (.estacionFueraDeRango (numEstaciones dfThree)) := by decide

/-! ## Claim C9 -/

/-- Claim C9, counterexample: on the detailed-data endpoint a malformed
date never reaches the controller's `except ValueError` — the service
catches it first — so the endpoint answers HTTP 200 with a
`success = false` body instead of a 400-class response. -/
theorem c9_counterexample :
    (detailed_data_endpoint dfOne 1 "not-a-date").1 = 200 ∧
    (detailed_data_endpoint dfOne 1 "not-a-date").1 ≠ 400 ∧
    (get_station_detailed_data dfOne 1 "not-a-date").success = false := by
  decide

/-- Claim C9, amended: a malformed date yields HTTP 400 on the all-stations
averages and per-station averages endpoints, and any other exception there
yields HTTP 500 with a generic message; the detailed-data endpoint instead
always answers HTTP 200, reporting failures in-band in its payload. -/
theorem c9_amended_date_errors :
    (∀ (df : DF) (date : String) (vars : List String), parseDate date = none →
      all_stations_averages_endpoint df date vars = 400) ∧
    (∀ (df : DF) (sid : Int) (date : String) (vars : List String),
      parseDate date = none → station_averages_endpoint df sid date vars = 400) ∧
    (∀ (msg : String),
      averagesLadder (α := AveragesResult) (.error (.other msg)) = 500) ∧
    (∀ (df : DF) (sid : Int) (date : String),
      (detailed_data_endpoint df sid date).1 = 200) := by
  refine ⟨?_, ?_, fun _ => rfl, fun _ _ _ => rfl⟩
  · intro df date vars h
    unfold all_stations_averages_endpoint get_all_stations_averages
    rw [h]
    rfl
  · intro df sid date vars h
    unfold station_averages_endpoint get_station_averages
      get_all_stations_averages
    rw [h]
    rfl

/-- Claim C9, witness: the malformed date `2024-13-01` (month 13) on both
averages endpoints, a generic internal failure, and the detailed-data
endpoint's unconditional 200. -/
theorem c9_witness :
    all_stations_averages_endpoint dfOne "2024-13-01" [] = 400 ∧
    station_averages_endpoint dfOne 1 "2024-13-01" [] = 400 ∧
    averagesLadder (α := AveragesResult) (.error (.other "boom")) = 500 ∧
    (detailed_data_endpoint dfOne 1 "2024-13-01").1 = 200 :=
  ⟨c9_amended_date_errors.1 dfOne "2024-13-01" [] (by decide),
   c9_amended_date_errors.2.1 dfOne 1 "2024-13-01" [] (by decide),
   c9_amended_date_errors.2.2.1 "boom",
   c9_amended_date_errors.2.2.2 dfOne 1 "2024-13-01"⟩

/-! ## Claim C6 -/

/-- Claim C6, counterexample: with the menu context on the station list but
no AI credential configured, the bare integer `"3"` hits the
`not has_gemini` fallback — which precedes the number match — and resolves
to a station lookup **by name** with the literal text `"3"`, not to
`station_status(number)`. -/
theorem c6_counterexample :
    interpretar_pregunta false (some .estaciones) none "3" =
      .estado_actual (some "3") ∧
    interpretar_pregunta false (some .estaciones) none "3" ≠
      .estado_actual_por_numero 3 := by decide

/-- Claim C6, amended: a message whose lower-cased trimmed form is a bare
integer resolves to `station_status(number)` — never to a complex/open
question — whenever an AI credential is configured (whatever the menu
context and whatever the external classifier would answer); with no AI
credential it instead resolves to `station_status(name = raw text)`,
because the no-AI fallback is tried before the number match. -/
theorem c6_amended_numeric_resolution (lastMenu : Option Menu)
    (g : Option Intent) (pregunta : String) (n : Nat)
    (hn : numMatch (pyNormalize pregunta) = some n) :
    interpretar_pregunta true lastMenu g pregunta =
      .estado_actual_por_numero n ∧
    interpretar_pregunta false lastMenu g pregunta =
      .estado_actual (some pregunta) := by
  have hq : (!(pyNormalize pregunta).data.isEmpty &&
      (pyNormalize pregunta).data.all isDigitChar) = true := by
    by_contra h
    rw [numMatch, if_neg h] at hn
    cases hn
  rw [Bool.and_eq_true, Bool.not_eq_true'] at hq
  obtain ⟨hqe, hqd⟩ := hq
  have hpre : ¬(pregunta = "") := by
    rintro rfl
    cases hqe
  have hAnyFalse : ∀ ws : List String,
      (∀ w ∈ ws, w.data.any (fun c => !isDigitChar c) = true) →
      (ws.any (fun w => strContains (pyNormalize pregunta) w)) = false := by
    intro ws hws
    rw [List.any_eq_false]
    intro w hw
    simp [strContains_false_of_digits hqd (hws w hw)]
  have hb1 : (saludosTokens.any
      (fun s => strContains (pyNormalize pregunta) s)) = false :=
    hAnyFalse _ (by decide)
  have hb5 : (preguntasComplejas.any
      (fun w => strContains (pyNormalize pregunta) w)) = false :=
    hAnyFalse _ (by decide)
  have hqa : ((pyNormalize pregunta) == "a") = false := by
    cases h : (pyNormalize pregunta) == "a" with
    | false => rfl
    | true => exact absurd (eq_of_beq h ▸ hqd) (by decide)
  have hqb : ((pyNormalize pregunta) == "b") = false := by
    cases h : (pyNormalize pregunta) == "b" with
    | false => rfl
    | true => exact absurd (eq_of_beq h ▸ hqd) (by decide)
  have hb4a : strStarts (pyNormalize pregunta) "qué es " = false :=
    strStarts_false_of_digits hqd (by decide)
  have hb4b : strStarts (pyNormalize pregunta) "que es " = false :=
    strStarts_false_of_digits hqd (by decide)
  have hb6a : strContains (pyNormalize pregunta) "cuántas estaciones" = false :=
    strContains_false_of_digits hqd (by decide)
  have hb6b : strContains (pyNormalize pregunta) "cuantas estaciones" = false :=
    strContains_false_of_digits hqd (by decide)
  have hb7 : letraMatch (pyNormalize pregunta) = none := by
    unfold letraMatch
    revert hqd
    generalize (pyNormalize pregunta).data = cs
    intro hqd
    match cs with
    | [] => rfl
    | [c] =>
      have hc : isDigitChar c = true := by simpa using hqd
      rw [isDigitChar, Bool.and_eq_true, decide_eq_true_eq,
        decide_eq_true_eq] at hc
      simp only [letraMatchL]
      rw [if_neg]
      simp only [Bool.or_eq_true, Bool.and_eq_true, decide_eq_true_eq, not_or,
        not_and]
      omega
    | _ :: _ :: _ => rfl
  constructor <;>
    simp only [interpretar_pregunta, if_neg hpre, hb1, hb5, hqa, hqb, hb4a,
      hb4b, hb6a, hb6b, hb7, hn, Bool.and_false, Bool.or_self, Bool.not_true,
      Bool.not_false, if_false, Bool.false_eq_true, if_true]

/-- Claim C6, witness: the bare integer `"3"` with the station-list context
active, in both AI configurations. -/
theorem c6_witness :
    interpretar_pregunta true (some .estaciones) none "3" =
      .estado_actual_por_numero 3 ∧
    interpretar_pregunta false (some .estaciones) none "3" =
      .estado_actual (some "3") :=
  c6_amended_numeric_resolution (some .estaciones) none "3" 3 (by decide)

/-! ## Claim C7 -/

/-- Claim C7, counterexample: a station lookup **by name** that fully
resolves (the station is found and has recent data) leaves the menu context
untouched — here it stays on the station list instead of being reset to
none, contradicting the claimed invariant. -/
theorem c7_counterexample :
    procesar_pregunta dfOne false (some .estaciones) none "halley" =
      { reply := .estacionInfo "Halley UIS", menu := some .estaciones } ∧
    (procesar_pregunta dfOne false (some .estaciones) none "halley").menu ≠
      none := by decide

/-- Claim C7, amended: the menu context is reset to none by a greeting, by
an in-range station lookup **by number**, and by a valid concept lookup by
letter (in the latter two cases provided the raw message does not
lower-case to `"a"`, which re-triggers the station list instead); a station
lookup **by name**, however, leaves the menu context unchanged. -/
theorem c7_amended_menu_reset (df : DF) (hasGemini : Bool)
    (menu : Option Menu) (g : Option Intent) (pregunta : String) :
    (interpretar_pregunta hasGemini menu g pregunta = .saludo →
      (procesar_pregunta df hasGemini menu g pregunta).menu = none) ∧
    (∀ n, interpretar_pregunta hasGemini menu g pregunta =
        .estado_actual_por_numero n →
      pyLower pregunta ≠ "a" → 1 ≤ n → n ≤ (chatbotStations df).length →
      (procesar_pregunta df hasGemini menu g pregunta).menu = none) ∧
    (∀ c v, interpretar_pregunta hasGemini menu g pregunta =
        .concepto_por_letra c →
      pyLower pregunta ≠ "a" → conceptosPorLetra.lookup c = some v →
      (procesar_pregunta df hasGemini menu g pregunta).menu = none) ∧
    (∀ est, interpretar_pregunta hasGemini menu g pregunta =
        .estado_actual (some est) →
      pyLower pregunta ≠ "a" → est ≠ "" →
      (procesar_pregunta df hasGemini menu g pregunta).menu = menu) := by
  unfold procesar_pregunta
  refine ⟨?_, ?_, ?_, ?_⟩
  · intro h
    rw [h]
    rfl
  · intro n h hpa h1 h2
    rw [h]
    have hpa' : (pyLower pregunta == "a") = false := by
      cases hb : pyLower pregunta == "a" with
      | false => rfl
      | true => exact absurd (eq_of_beq hb) hpa
    have hrange : (decide (n < 1) || decide ((chatbotStations df).length < n)) =
        false := by
      simp only [Bool.or_eq_false_iff, decide_eq_false_iff_not, Nat.not_lt]
      omega
    simp only [procesar_intent, hpa', hrange, reduceCtorEq, decide_False,
      Bool.or_false, if_false, Bool.false_eq_true, if_true]
    split
    · rfl
    · split <;> rfl
  · intro c v h hpa hc
    rw [h]
    have hpa' : (pyLower pregunta == "a") = false := by
      cases hb : pyLower pregunta == "a" with
      | false => rfl
      | true => exact absurd (eq_of_beq hb) hpa
    simp only [procesar_intent, hpa', hc, reduceCtorEq, decide_False,
      Bool.or_false, if_false, Bool.false_eq_true]
  · intro est h hpa hne
    rw [h]
    have hpa' : (pyLower pregunta == "a") = false := by
      cases hb : pyLower pregunta == "a" with
      | false => rfl
      | true => exact absurd (eq_of_beq hb) hpa
    simp only [procesar_intent, hpa', reduceCtorEq, decide_False,
      Bool.or_false, if_false, Bool.false_eq_true, if_neg hne]
    split
    · rfl
    · split <;> rfl

/-- Claim C7, witness for the amended theorem: against the one-station
dataset, a greeting, the in-range lookup by number `1`, and the concept
lookup by letter `b` each reset the menu context, while the by-name lookup
of `"halley"` leaves the station-list context in place. -/
theorem c7_witness :
    (procesar_pregunta dfOne true (some .estaciones) none "hola").menu =
      none ∧
    (procesar_pregunta dfOne true (some .estaciones) none "1").menu = none ∧
    (procesar_pregunta dfOne true (some .conceptos) none "b").menu = none ∧
    (procesar_pregunta dfOne false (some .estaciones) none "halley").menu =
      some .estaciones :=
  ⟨(c7_amended_menu_reset dfOne true (some .estaciones) none "hola").1
      (by decide),
   (c7_amended_menu_reset dfOne true (some .estaciones) none "1").2.1 1
      (by decide) (by decide) (by decide) (by decide),
   (c7_amended_menu_reset dfOne true (some .conceptos) none "b").2.2.1
      'B' "humedad" (by decide) (by decide) (by decide),
   (c7_amended_menu_reset dfOne false (some .estaciones) none "halley").2.2.2
      "halley" (by decide) (by decide) (by decide)⟩

/-! ## Claim C1 -/

/-- Claim C1: for a well-formed date (one the parser accepts) such that no
loaded reading's timestamp falls inside that UTC calendar day,
`get_all_stations_averages` succeeds — it raises nothing — and returns the
empty payload with `stations_with_data = 0` and an empty station list. -/
theorem c1_empty_day (df : DF) (date : String) (vars : List String)
    (d : Nat × Nat × Nat) (hd : parseDate date = some d)
    (hnone : ∀ r ∈ df.rows,
      ¬(dayStartMicros d ≤ r.timestamp ∧ r.timestamp ≤ dayEndMicros d)) :
    get_all_stations_averages df date vars =
      .ok { date := date, total_stations := 0, stations_with_data := 0,
            vars := none, stations := [] } := by
  have hfil : df.rows.filter (fun r =>
      decide (dayStartMicros d ≤ r.timestamp) &&
        decide (r.timestamp ≤ dayEndMicros d)) = [] := by
    rw [List.filter_eq_nil_iff]
    intro r hr
    simp only [Bool.and_eq_true, decide_eq_true_eq, not_and]
    intro h1 h2
    exact hnone r hr ⟨h1, h2⟩
  simp only [get_all_stations_averages, hd, hfil, List.isEmpty_nil, if_true]

/-- Claim C1, witness: the day 2024-01-15 against a dataset whose readings
all lie in November 2023. -/
theorem c1_witness :
    get_all_stations_averages dfThree "2024-01-15" defaultVariables =
      .ok { date := "2024-01-15", total_stations := 0,
            stations_with_data := 0, vars := none, stations := [] } :=
  c1_empty_day dfThree "2024-01-15" defaultVariables (2024, 1, 15)
    (by decide) (by decide)

/-! ## Claim C10 -/

/-- Claim C10: whenever `get_filtered_data` produces a result (it raises
only on a negative `max_records`), that result reports at most
`max_records` total records, and any raw-data record list it carries also
holds at most `max_records` rows. -/
theorem c10_max_records_bound (df : DF) (q : ChatbotQuery)
    (r : FilteredResult) (h : get_filtered_data df q = .ok r) :
    (r.total_records : Int) ≤ q.max_records ∧
    (∀ rows, r.data = some rows → (rows.length : Int) ≤ q.max_records) := by
  simp only [get_filtered_data] at h
  split at h
  case isTrue hgt =>
    split at h
    case isTrue hneg => cases h
    case isFalse hneg =>
      rw [Except.ok.injEq] at h
      subst h
      have hmax : (0 : Int) ≤ q.max_records := le_of_not_lt hneg
      have htn : (q.max_records.toNat : Int) = q.max_records :=
        Int.toNat_of_nonneg hmax
      constructor
      · simp only [List.length_take]
        calc ((min q.max_records.toNat _ : Nat) : Int)
            ≤ (q.max_records.toNat : Int) := by
              exact_mod_cast Nat.min_le_left _ _
          _ = q.max_records := htn
      · intro rows hr
        by_cases hi : q.include_raw_data
        · simp only [hi, if_true, Option.some.injEq] at hr
          subst hr
          simp only [List.length_take]
          calc ((min q.max_records.toNat _ : Nat) : Int)
              ≤ (q.max_records.toNat : Int) := by
                exact_mod_cast Nat.min_le_left _ _
            _ = q.max_records := htn
        · simp only [hi, if_false, Bool.false_eq_true] at hr
          cases hr
  case isFalse hle =>
    rw [Except.ok.injEq] at h
    subst h
    have hb := le_of_not_lt hle
    constructor
    · exact hb
    · intro rows hr
      by_cases hi : q.include_raw_data
      · simp only [hi, if_true, Option.some.injEq] at hr
        subst hr
        exact hb
      · simp only [hi, if_false, Bool.false_eq_true] at hr
        cases hr

/-- The filtered-data query used by the C10 witness. -/
def c10query : ChatbotQuery :=
  { stations := none, queryVars := none, dateStart := none, dateEnd := none,
    include_raw_data := true, max_records := 2 }

/-- The down-sampled result of `c10query` over the three-row dataset. -/
def c10result : FilteredResult :=
  { total_records := 2, stations_count := 2,
    dateRangeStart := some 1700000000000000,
    dateRangeEnd := some 1700000001000000,
    data := some [sampleRow 1 1700000000000000 "Norte" "AIR",
                  sampleRow 2 1700000001000000 "Centro" "AIR"] }

/-- Claim C10, witness: three rows filtered with `max_records = 2` and raw
data requested. -/
theorem c10_witness :
    (c10result.total_records : Int) ≤ c10query.max_records ∧
    (∀ rows, c10result.data = some rows →
      (rows.length : Int) ≤ c10query.max_records) :=
  c10_max_records_bound dfThree c10query c10result rfl

/-! ## Claim C2 -/

/-- Claim C2: in the all-stations averages result, a requested variable
whose column is missing or whose values are all absent for the station's
rows of the day is reported as unavailable (`none`) — never as a statistic
computed over zero samples — and every statistic the result does report was
computed over at least one sample, so the mean never divides by zero. -/
theorem c2_absent_variable_unavailable (df : DF) (date : String)
    (vars : List String) (d : Nat × Nat × Nat) (hd : parseDate date = some d)
    (res : AveragesResult)
    (hres : get_all_stations_averages df date vars = .ok res)
    (entry : StationAveragesEntry) (he : entry ∈ res.stations)
    (v : String) (hv : v ∈ vars) :
    ((v ∉ df.columns ∨ ∀ r ∈ df.rows, r.station_id = entry.station_id →
        dayStartMicros d ≤ r.timestamp → r.timestamp ≤ dayEndMicros d →
        r.vals v = none) →
      entry.raw_averages.lookup v = some none) ∧
    (∀ st, entry.raw_averages.lookup v = some (some st) → 1 ≤ st.count) := by
  simp only [get_all_stations_averages, hd] at hres
  split at hres
  case isTrue hemp =>
    rw [Except.ok.injEq] at hres
    subst hres
    cases he
  case isFalse hemp =>
    rw [Except.ok.injEq] at hres
    subst hres
    obtain ⟨sid, hsid, hf⟩ := List.mem_filterMap.mp he
    cases hfl : (df.rows.filter (fun r =>
        decide (dayStartMicros d ≤ r.timestamp) &&
          decide (r.timestamp ≤ dayEndMicros d))).filter
        (fun r => r.station_id == sid) with
    | nil =>
      rw [hfl] at hf
      exact Option.noConfusion hf
    | cons info rest =>
      simp only [hfl, Option.some.injEq] at hf
      subst hf
      have hlook := lookup_map_self vars
        (fun w => variableStats df.columns (info :: rest) w) v hv
      constructor
      · intro habs
        show (vars.map (fun w =>
          (w, variableStats df.columns (info :: rest) w))).lookup v = some none
        rw [hlook, Option.some.injEq]
        rcases habs with hnc | hall
        · simp only [variableStats, if_neg hnc]
        · by_cases hcc : v ∈ df.columns
          · simp only [variableStats, if_pos hcc]
            have hnil : (info :: rest).filterMap (fun r => r.vals v) = [] := by
              rw [List.filterMap_eq_nil_iff]
              intro r hr
              have hrmem : r ∈ (df.rows.filter (fun r =>
                  decide (dayStartMicros d ≤ r.timestamp) &&
                    decide (r.timestamp ≤ dayEndMicros d))).filter
                  (fun r => r.station_id == sid) := hfl ▸ hr
              obtain ⟨hr1, hr2⟩ := List.mem_filter.mp hrmem
              obtain ⟨hr0, hrday⟩ := List.mem_filter.mp hr1
              rw [Bool.and_eq_true, decide_eq_true_eq, decide_eq_true_eq]
                at hrday
              exact hall r hr0 (eq_of_beq hr2) hrday.1 hrday.2
            rw [hnil]
          · simp only [variableStats, if_neg hcc]
      · intro st hlu
        have hlu' : (vars.map (fun w =>
            (w, variableStats df.columns (info :: rest) w))).lookup v =
            some (some st) := hlu
        rw [hlook, Option.some.injEq] at hlu'
        simp only [variableStats] at hlu'
        split at hlu'
        · split at hlu'
          · cases hlu'
          · rw [Option.some.injEq] at hlu'
            subst hlu'
            exact Nat.succ_le_succ (Nat.zero_le _)
        · cases hlu'

/-- The single all-absent station entry of the C2 witness. -/
def c2entry : StationAveragesEntry :=
  { station_id := 5, station_name := "Girón", lat := 7, lon := -73,
    tipo_equipo := "AIR", record_count := 1,
    raw_averages := [("ica", none)],
    data := { temp := none, hum := none, pm_1p0 := none, pm_2p5 := none,
              pm_10p0 := none, ica := none, precipitacion := none,
              ts := none } }

/-- The all-stations averages result of the C2 witness. -/
def c2res : AveragesResult :=
  { date := "2024-01-15", total_stations := 1, stations_with_data := 1,
    vars := some ["ica"], stations := [c2entry] }

/-- Claim C2, witness: the variable `ica` requested for a station whose
only reading of the day has every measurement absent. -/
theorem c2_witness : c2entry.raw_averages.lookup "ica" = some none :=
  (c2_absent_variable_unavailable dfAllAbsent "2024-01-15" ["ica"]
      (2024, 1, 15) (by decide) c2res rfl c2entry (by decide) "ica"
      (by decide)).1 (Or.inr (by decide))

/-! ## Claim C3 -/

theorem tipoPriority_pos (t : String) : 1 ≤ tipoPriority t := by
  unfold tipoPriority
  split_ifs <;> omega

theorem tipoPriority_le_one (t : String) (h : tipoPriority t ≤ 1) :
    t = "VUE+AIR" := by
  by_contra hne
  unfold tipoPriority at h
  rw [if_neg hne] at h
  split_ifs at h <;> omega

theorem countP_filterMap_entries (ids : List Int)
    (g : Int → Option StationSummaryEntry) (sid : Int)
    (hg : ∀ s ∈ ids, ∃ e, g s = some e ∧ e.station_id = s) :
    (ids.filterMap g).countP (fun e => e.station_id == sid) =
      ids.countP (fun s => s == sid) := by
  induction ids with
  | nil => rfl
  | cons a rest ih =>
    obtain ⟨e, hge, hesid⟩ := hg a (List.mem_cons_self _ _)
    rw [List.filterMap_cons, hge, List.countP_cons, List.countP_cons,
      ih (fun s hs => hg s (List.mem_cons_of_mem _ hs)), hesid]

/-- Claim C3: a station id present in the data under the combined label
`VUE+AIR` and under some other label is reported by `get_stations_summary`
exactly once, and with the `VUE+AIR` label: the combined label has strictly
highest priority, so the group's first row after the priority sort carries
it deterministically. -/
theorem c3_dedup_prefers_combined (df : DF) (sid : Int)
    (h1 : ∃ r ∈ df.rows, r.station_id = sid ∧ r.tipo_equipo = "VUE+AIR")
    (_h2 : ∃ r ∈ df.rows, r.station_id = sid ∧ r.tipo_equipo ≠ "VUE+AIR") :
    ((get_stations_summary df).stations.countP
        (fun e => e.station_id == sid)) = 1 ∧
    (∀ e ∈ (get_stations_summary df).stations, e.station_id = sid →
      e.tipo_equipo = "VUE+AIR") := by
  clear _h2
  obtain ⟨rv, hrv, hrvsid, hrvtipo⟩ := h1
  have hperm : ∀ r : Row, r ∈ df.rows.insertionSort rowPriorityLE ↔
      r ∈ df.rows :=
    fun r => (List.perm_insertionSort rowPriorityLE df.rows).mem_iff
  have hsortedP : List.Sorted rowPriorityLE
      (df.rows.insertionSort rowPriorityLE) :=
    List.sorted_insertionSort rowPriorityLE df.rows
  have hsid_mem : sid ∈ uniqueFirst
      ((df.rows.insertionSort rowPriorityLE).map (fun r => r.station_id)) := by
    rw [mem_uniqueFirst, List.mem_map]
    exact ⟨rv, (hperm rv).mpr hrv, hrvsid⟩
  -- the first row found for `sid` in the sorted list carries the label
  have hkey : ∀ r0, (df.rows.insertionSort rowPriorityLE).find?
      (fun r => r.station_id == sid) = some r0 →
      r0.station_id = sid ∧ r0.tipo_equipo = "VUE+AIR" := by
    intro r0 hr0
    obtain ⟨hpb, as, bs, hsplit, hAs⟩ := List.find?_eq_some.mp hr0
    have hr0sid : r0.station_id = sid := eq_of_beq hpb
    refine ⟨hr0sid, ?_⟩
    have hrv_sorted : rv ∈ as ++ r0 :: bs :=
      hsplit ▸ (hperm rv).mpr hrv
    rcases List.mem_append.mp hrv_sorted with hin_as | hin_rest
    · have := hAs rv hin_as
      rw [Bool.not_eq_eq_eq_not, Bool.not_true] at this
      rw [beq_eq_false_iff_ne] at this
      exact absurd hrvsid this
    · rcases List.mem_cons.mp hin_rest with rfl | hin_bs
      · exact hrvtipo
      · have hP : List.Pairwise rowPriorityLE (as ++ r0 :: bs) :=
          hsplit ▸ hsortedP
        have hle : rowPriorityLE r0 rv :=
          (List.pairwise_cons.mp (List.pairwise_append.mp hP).2.1).1 rv hin_bs
        rcases hle with hlt | ⟨_, hpr⟩
        · rw [hr0sid, hrvsid] at hlt
          exact absurd hlt (lt_irrefl sid)
        · rw [hrvtipo] at hpr
          exact tipoPriority_le_one _ (by simpa [tipoPriority] using hpr)
  have hg : ∀ s ∈ uniqueFirst
      ((df.rows.insertionSort rowPriorityLE).map (fun r => r.station_id)),
      ∃ e, ((df.rows.insertionSort rowPriorityLE).find?
          (fun r => r.station_id == s)).map (fun r =>
        ({ station_id := r.station_id, station_name := r.station_name,
           lat := r.lat, lon := r.lon,
           tipo_equipo := r.tipo_equipo } : StationSummaryEntry)) = some e ∧
        e.station_id = s := by
    intro s hs
    rw [mem_uniqueFirst, List.mem_map] at hs
    obtain ⟨r, hrmem, hrsid⟩ := hs
    cases hf : (df.rows.insertionSort rowPriorityLE).find?
        (fun r => r.station_id == s) with
    | none =>
      rw [List.find?_eq_none] at hf
      exact absurd (beq_iff_eq.mpr hrsid) (by simpa using hf r hrmem)
    | some r1 =>
      have hpr1 := List.find?_some hf
      exact ⟨_, rfl, eq_of_beq hpr1⟩
  constructor
  · show (((uniqueFirst ((df.rows.insertionSort rowPriorityLE).map
        (fun r => r.station_id))).filterMap (fun sid' =>
        ((df.rows.insertionSort rowPriorityLE).find?
            (fun r => r.station_id == sid')).map (fun r =>
          ({ station_id := r.station_id, station_name := r.station_name,
             lat := r.lat, lon := r.lon,
             tipo_equipo := r.tipo_equipo } : StationSummaryEntry)))).countP
        (fun e => e.station_id == sid)) = 1
    rw [countP_filterMap_entries _ _ sid hg]
    exact List.count_eq_one_of_mem (nodup_uniqueFirst _) hsid_mem
  · intro e hmem hesid
    obtain ⟨sid', hsid', hmap⟩ := List.mem_filterMap.mp hmem
    obtain ⟨r1, hr1find, he⟩ := Option.map_eq_some'.mp hmap
    have hpr1 := List.find?_some hr1find
    have hr1sid : r1.station_id = sid' := eq_of_beq hpr1
    have hsid'eq : sid' = sid := by
      rw [← hr1sid]
      rw [← he] at hesid
      exact hesid
    subst hsid'eq
    subst he
    exact (hkey r1 hr1find).2

/-- Claim C3, witness: station id 7 appears under `AIR` and under
`VUE+AIR`; the summary lists it once, with the `VUE+AIR` label. -/
theorem c3_witness :
    ((get_stations_summary dfDup).stations.countP
        (fun e => e.station_id == 7)) = 1 ∧
    (∀ e ∈ (get_stations_summary dfDup).stations, e.station_id = 7 →
      e.tipo_equipo = "VUE+AIR") :=
  c3_dedup_prefers_combined dfDup 7
    ⟨sampleRow 7 1700000001000000 "Halley VUE" "VUE+AIR",
      List.mem_cons_of_mem _ (List.mem_cons_self _ _), rfl, rfl⟩
    ⟨sampleRow 7 1700000000000000 "Halley AIR" "AIR",
      List.mem_cons_self _ _, rfl, by decide⟩

end Climathia
